import Mathlib

/-!
Shallow embedding of the service control state machine of the win_service
crate (src/lib.rs). The embedding covers:

- the StatusUpdater record and its methods (send_update, checkpoint_with_hint,
  checkpoint, set_state, set_accept_bits), src/lib.rs lines 54-127;
- the service control handler callback (service_control_handler),
  src/lib.rs lines 157-249;
- the start handshake portion of service_proc (registration already
  succeeded, handle stored), src/lib.rs lines 289-313.

Machine integers are modelled as Nat with explicit reduction mod 2^32 where
u32 arithmetic can overflow or truncate.  The OS side (SetServiceStatus
calls, handler-hook invocations, the condition-variable broadcast) is
modelled as an event trace.  User-supplied lifecycle hooks receive a
mutable reference to the StatusUpdater in the source; since its fields and
set_state are private to the crate, a hook can only act on the updater
through the public methods checkpoint / checkpoint_with_hint / accepts_*.
A hook is therefore modelled as a function from the updater it is handed to
the list of public calls it performs (a deterministic hook is fully
determined by that input).  The assert in the control handler (fatal when
invoked in SERVICE_STOPPED) is modelled by an Option result, none meaning
the assertion fired.
-/

set_option autoImplicit false

/-- Modulus of u32 arithmetic. -/
def U32_MOD : Nat := 4294967296

-- Service state codes (winsvc constants used by the source).
def SERVICE_STOPPED : Nat := 1
def SERVICE_START_PENDING : Nat := 2
def SERVICE_STOP_PENDING : Nat := 3
def SERVICE_RUNNING : Nat := 4
def SERVICE_CONTINUE_PENDING : Nat := 5
def SERVICE_PAUSE_PENDING : Nat := 6
def SERVICE_PAUSED : Nat := 7

-- Service control codes.
def SERVICE_CONTROL_STOP : Nat := 1
def SERVICE_CONTROL_PAUSE : Nat := 2
def SERVICE_CONTROL_CONTINUE : Nat := 3
def SERVICE_CONTROL_INTERROGATE : Nat := 4
def SERVICE_CONTROL_SHUTDOWN : Nat := 5
def SERVICE_CONTROL_PARAMCHANGE : Nat := 6
def SERVICE_CONTROL_POWEREVENT : Nat := 13
def SERVICE_CONTROL_PRESHUTDOWN : Nat := 15

-- Accepted-controls bits.
def SERVICE_ACCEPT_STOP : Nat := 1
def SERVICE_ACCEPT_PAUSE_CONTINUE : Nat := 2
def SERVICE_ACCEPT_SHUTDOWN : Nat := 4
def SERVICE_ACCEPT_PARAMCHANGE : Nat := 8
def SERVICE_ACCEPT_POWEREVENT : Nat := 64

-- Reply codes (winerror constants used by the source).
def NO_ERROR : Nat := 0
def ERROR_CALL_NOT_IMPLEMENTED : Nat := 120
def ERROR_INVALID_STATE : Nat := 5023

/-- Power broadcast sub-type dispatched to the power_setting hook. -/
def PBT_POWERSETTINGCHANGE : Nat := 32787

/-- Service type installed by service_proc (missing from winapi, defined in
the source as 0x50). -/
def SERVICE_USER_OWN_PROCESS : Nat := 80

/-- The SERVICE_STATUS record passed to SetServiceStatus (one published
status report), src/lib.rs lines 73-81. -/
structure SERVICE_STATUS where
  dwCheckPoint : Nat
  dwControlsAccepted : Nat
  dwCurrentState : Nat
  dwWaitHint : Nat
  dwServiceSpecificExitCode : Nat
  dwServiceType : Nat
  dwWin32ExitCode : Nat
deriving DecidableEq

/-- The StatusUpdater record, src/lib.rs lines 54-60.  The raw handle is
modelled only by whether it is null (the one property the code reads). -/
structure StatusUpdater where
  service_status_handle_is_null : Bool
  checkpoint : Nat
  current_state : Nat
  service_type : Nat
  controls_accepted : Nat
deriving DecidableEq

/-- The status record built and published by send_update, src/lib.rs lines
73-81.  The wait-hint field reproduces the source expression
wait_hint.as_millis().max(u32::MAX.into()) as u32 on a duration given in
milliseconds: Nat.max against 2^32 - 1 followed by u32 truncation. -/
def StatusUpdater.current_status (u : StatusUpdater) (wait_hint_millis : Nat) :
    SERVICE_STATUS :=
  { dwCheckPoint := u.checkpoint
    dwControlsAccepted := u.controls_accepted
    dwCurrentState := u.current_state
    dwWaitHint := (Nat.max wait_hint_millis (U32_MOD - 1)) % U32_MOD
    dwServiceSpecificExitCode := 0
    dwServiceType := u.service_type
    dwWin32ExitCode := 0 }

/-- Embeds send_update, src/lib.rs lines 68-89: returns the list of status
records published to the OS by this call (none when the registration handle
is still null, one otherwise).  The updater record itself is not written by
send_update. -/
def StatusUpdater.send_update (u : StatusUpdater) (wait_hint_millis : Nat) :
    List SERVICE_STATUS :=
  if u.service_status_handle_is_null then []
  else [u.current_status wait_hint_millis]

/-- Embeds checkpoint_with_hint, src/lib.rs lines 63-66: publish via
send_update with the current counter, then increment the counter (u32
wrap-around made explicit). -/
def StatusUpdater.checkpoint_with_hint (u : StatusUpdater)
    (wait_hint_millis : Nat) : StatusUpdater × List SERVICE_STATUS :=
  ({ u with checkpoint := (u.checkpoint + 1) % U32_MOD },
   u.send_update wait_hint_millis)

/-- Embeds the checkpoint method, src/lib.rs lines 91-93 (named
checkpoint0 here because the field of the same name occupies the
StatusUpdater.checkpoint slot): checkpoint_with_hint with a zero duration,
whose as_millis is 0. -/
def StatusUpdater.checkpoint0 (u : StatusUpdater) :
    StatusUpdater × List SERVICE_STATUS :=
  u.checkpoint_with_hint 0

/-- Embeds set_state, src/lib.rs lines 95-98: record the new state and
reset the checkpoint counter to 0; publishes nothing. -/
def StatusUpdater.set_state (u : StatusUpdater) (state : Nat) : StatusUpdater :=
  { u with current_state := state, checkpoint := 0 }

/-- Embeds set_accept_bits, src/lib.rs lines 100-106; the u32 bitwise
complement of the mask is mask XOR (2^32 - 1). -/
def StatusUpdater.set_accept_bits (u : StatusUpdater) (mask : Nat)
    (value : Bool) : StatusUpdater :=
  if value then { u with controls_accepted := u.controls_accepted ||| mask }
  else { u with controls_accepted := u.controls_accepted &&& (mask ^^^ (U32_MOD - 1)) }

/-- Events observable outside the state record: a SetServiceStatus call, a
handler-hook invocation, and the condition-variable broadcast. -/
inductive Ev where
  | pub (s : SERVICE_STATUS)
  | hookStart
  | hookStop
  | hookPause
  | hookResume
  | hookParamChange
  | hookPowerSetting
  | hookShutdown
  | hookPreshutdown
  | notifyAll
deriving DecidableEq

/-- Public StatusUpdater calls available to a lifecycle hook through its
mutable reference: checkpoint / checkpoint_with_hint (by its wait hint in
milliseconds) and the accepts_* family (by the mask bit they set or
clear).  set_state and the raw fields are private to the crate. -/
inductive UpdOp where
  | cpHint (millis : Nat)
  | accept (mask : Nat) (value : Bool)
deriving DecidableEq

/-- Runs a list of public StatusUpdater calls made by a hook, collecting
the publish events they produce. -/
def runUpdOps : StatusUpdater → List UpdOp → StatusUpdater × List Ev
  | u, [] => (u, [])
  | u, UpdOp.cpHint m :: rest =>
      let p := u.checkpoint_with_hint m
      let r := runUpdOps p.1 rest
      (r.1, p.2.map Ev.pub ++ r.2)
  | u, UpdOp.accept mask v :: rest => runUpdOps (u.set_accept_bits mask v) rest

/-- The user-supplied ServiceHandler trait object, src/lib.rs lines 30-43.
Each lifecycle hook that receives the updater is modelled by the list of
public StatusUpdater calls it performs as a function of the updater it is
handed; startOk models the Result returned by start.  param_change and
power_setting take no updater in the source and so perform no updater
calls. -/
structure ServiceHandler where
  startOk : StatusUpdater → Bool
  startOps : StatusUpdater → List UpdOp
  stopOps : StatusUpdater → List UpdOp
  pauseOps : StatusUpdater → List UpdOp
  resumeOps : StatusUpdater → List UpdOp
  shutdownOps : StatusUpdater → List UpdOp
  preshutdownOps : StatusUpdater → List UpdOp

/-- Embeds service_control_handler, src/lib.rs lines 157-249, for one
invocation under the shared-state lock.  Returns none when the defensive
assert fires (invocation while current_state is SERVICE_STOPPED, lines
171-175); otherwise some (updater after the call, event trace, reply
code). -/
def service_control_handler (h : ServiceHandler) (control : Nat)
    (event_type : Nat) (u : StatusUpdater) :
    Option (StatusUpdater × List Ev × Nat) :=
  if u.current_state = SERVICE_STOPPED then none
  else if control = SERVICE_CONTROL_STOP then
    let u1 := u.set_state SERVICE_STOP_PENDING
    let r := runUpdOps u1 (h.stopOps u1)
    let u2 := r.1.set_state SERVICE_STOPPED
    let c := u2.checkpoint0
    some (c.1, Ev.hookStop :: r.2 ++ c.2.map Ev.pub ++ [Ev.notifyAll], NO_ERROR)
  else if control = SERVICE_CONTROL_INTERROGATE then
    some (u, (u.send_update 0).map Ev.pub, NO_ERROR)
  else if control = SERVICE_CONTROL_PAUSE then
    let r := runUpdOps u (h.pauseOps u)
    some (r.1, Ev.hookPause :: r.2, NO_ERROR)
  else if control = SERVICE_CONTROL_CONTINUE then
    if u.current_state ≠ SERVICE_RUNNING then
      some (u, [], ERROR_INVALID_STATE)
    else
      let u1 := u.set_state SERVICE_CONTINUE_PENDING
      let c1 := u1.checkpoint0
      let r := runUpdOps c1.1 (h.resumeOps c1.1)
      let u2 := r.1.set_state SERVICE_RUNNING
      let c2 := u2.checkpoint0
      some (c2.1, c1.2.map Ev.pub ++ Ev.hookResume :: r.2 ++ c2.2.map Ev.pub,
            NO_ERROR)
  else if control = SERVICE_CONTROL_PARAMCHANGE then
    some (u, [Ev.hookParamChange], NO_ERROR)
  else if control = SERVICE_CONTROL_POWEREVENT then
    if event_type = PBT_POWERSETTINGCHANGE then
      some (u, [Ev.hookPowerSetting], NO_ERROR)
    else
      some (u, [], NO_ERROR)
  else
    some (u, [], ERROR_CALL_NOT_IMPLEMENTED)

/-- The StatusUpdater constructed in service_proc, src/lib.rs lines
266-272, after the registration handle has been stored into it (line
292). -/
def initial_status_updater : StatusUpdater :=
  { service_status_handle_is_null := false
    checkpoint := 0
    current_state := SERVICE_START_PENDING
    service_type := SERVICE_USER_OWN_PROCESS
    controls_accepted := SERVICE_ACCEPT_STOP }

/-- Embeds the start handshake of service_proc, src/lib.rs lines 294-313:
call handler.start on the updater; on failure set SERVICE_STOPPED, publish
a checkpoint and return early (flag false); on success set SERVICE_RUNNING
and publish a checkpoint (flag true). -/
def service_proc_start (h : ServiceHandler) (u : StatusUpdater) :
    StatusUpdater × List Ev × Bool :=
  let r := runUpdOps u (h.startOps u)
  if h.startOk u then
    let u2 := r.1.set_state SERVICE_RUNNING
    let c := u2.checkpoint0
    (c.1, Ev.hookStart :: r.2 ++ c.2.map Ev.pub, true)
  else
    let u2 := r.1.set_state SERVICE_STOPPED
    let c := u2.checkpoint0
    (c.1, Ev.hookStart :: r.2 ++ c.2.map Ev.pub, false)

/-- Operations a sequence of which can act on a StatusUpdater in the
source: the crate-internal set_state, a checkpoint / checkpoint_with_hint
call, a bare send_update (the Interrogate path republishes through it,
src/lib.rs line 193), and the accepts_* family. -/
inductive StatusOp where
  | setState (s : Nat)
  | cpHint (millis : Nat)
  | sendUpdate (millis : Nat)
  | accept (mask : Nat) (value : Bool)
deriving DecidableEq

/-- Runs a sequence of StatusUpdater operations, collecting every status
record published to the OS in order. -/
def runStatusOps : StatusUpdater → List StatusOp → StatusUpdater × List SERVICE_STATUS
  | u, [] => (u, [])
  | u, StatusOp.setState s :: rest => runStatusOps (u.set_state s) rest
  | u, StatusOp.cpHint m :: rest =>
      let p := u.checkpoint_with_hint m
      let r := runStatusOps p.1 rest
      (r.1, p.2 ++ r.2)
  | u, StatusOp.sendUpdate m :: rest =>
      let r := runStatusOps u rest
      (r.1, u.send_update m ++ r.2)
  | u, StatusOp.accept mask v :: rest => runStatusOps (u.set_accept_bits mask v) rest

/-- Selects the handler-hook invocation events of a trace. -/
def isHookEv : Ev → Bool
  | Ev.pub _ => false
  | Ev.notifyAll => false
  | _ => true

/-- Handler whose hooks perform no StatusUpdater calls and whose start
succeeds. -/
def noopHandler : ServiceHandler :=
  { startOk := fun _ => true
    startOps := fun _ => []
    stopOps := fun _ => []
    pauseOps := fun _ => []
    resumeOps := fun _ => []
    shutdownOps := fun _ => []
    preshutdownOps := fun _ => [] }

/-- Handler whose start fails and performs no StatusUpdater calls. -/
def failingHandler : ServiceHandler :=
  { noopHandler with startOk := fun _ => false }

/-- Updater in the SERVICE_RUNNING state with an established registration
handle, as produced by a successful start handshake followed by a few
checkpoints. -/
def runningUpdater : StatusUpdater :=
  { service_status_handle_is_null := false
    checkpoint := 3
    current_state := SERVICE_RUNNING
    service_type := SERVICE_USER_OWN_PROCESS
    controls_accepted := 1 }

/-- Updater whose registration handle is still null (before line 292 of
src/lib.rs stores the handle). -/
def nullHandleUpdater : StatusUpdater :=
  { service_status_handle_is_null := true
    checkpoint := 5
    current_state := SERVICE_RUNNING
    service_type := SERVICE_USER_OWN_PROCESS
    controls_accepted := 1 }

@[simp]
theorem checkpoint_with_hint_fst_state (u : StatusUpdater) (m : Nat) :
    (u.checkpoint_with_hint m).1.current_state = u.current_state := rfl

@[simp]
theorem checkpoint_with_hint_fst_null (u : StatusUpdater) (m : Nat) :
    (u.checkpoint_with_hint m).1.service_status_handle_is_null =
      u.service_status_handle_is_null := rfl

@[simp]
theorem checkpoint_with_hint_fst_checkpoint (u : StatusUpdater) (m : Nat) :
    (u.checkpoint_with_hint m).1.checkpoint = (u.checkpoint + 1) % U32_MOD := rfl

@[simp]
theorem set_state_current_state (u : StatusUpdater) (s : Nat) :
    (u.set_state s).current_state = s := rfl

@[simp]
theorem set_state_checkpoint (u : StatusUpdater) (s : Nat) :
    (u.set_state s).checkpoint = 0 := rfl

@[simp]
theorem set_state_null (u : StatusUpdater) (s : Nat) :
    (u.set_state s).service_status_handle_is_null =
      u.service_status_handle_is_null := rfl

@[simp]
theorem set_accept_bits_current_state (u : StatusUpdater) (mask : Nat) (v : Bool) :
    (u.set_accept_bits mask v).current_state = u.current_state := by
  unfold StatusUpdater.set_accept_bits
  split <;> rfl

@[simp]
theorem set_accept_bits_checkpoint (u : StatusUpdater) (mask : Nat) (v : Bool) :
    (u.set_accept_bits mask v).checkpoint = u.checkpoint := by
  unfold StatusUpdater.set_accept_bits
  split <;> rfl

@[simp]
theorem set_accept_bits_null (u : StatusUpdater) (mask : Nat) (v : Bool) :
    (u.set_accept_bits mask v).service_status_handle_is_null =
      u.service_status_handle_is_null := by
  unfold StatusUpdater.set_accept_bits
  split <;> rfl

theorem send_update_mem (u : StatusUpdater) (m : Nat) :
    ∀ s ∈ u.send_update m,
      s.dwCurrentState = u.current_state ∧ s.dwCheckPoint = u.checkpoint := by
  intro s hs
  unfold StatusUpdater.send_update at hs
  split at hs
  · simp at hs
  · simp at hs
    subst hs
    exact ⟨rfl, rfl⟩

theorem send_update_of_not_null (u : StatusUpdater) (m : Nat)
    (h : u.service_status_handle_is_null = false) :
    u.send_update m = [u.current_status m] := by
  unfold StatusUpdater.send_update
  rw [h]
  simp

theorem runUpdOps_state (ops : List UpdOp) :
    ∀ u : StatusUpdater, (runUpdOps u ops).1.current_state = u.current_state := by
  induction ops with
  | nil => intro u; rfl
  | cons op rest ih =>
    intro u
    cases op with
    | cpHint m =>
      show (runUpdOps (u.checkpoint_with_hint m).1 rest).1.current_state = _
      rw [ih]
      simp
    | accept mask v =>
      show (runUpdOps (u.set_accept_bits mask v) rest).1.current_state = _
      rw [ih]
      simp

theorem runUpdOps_null (ops : List UpdOp) :
    ∀ u : StatusUpdater,
      (runUpdOps u ops).1.service_status_handle_is_null =
        u.service_status_handle_is_null := by
  induction ops with
  | nil => intro u; rfl
  | cons op rest ih =>
    intro u
    cases op with
    | cpHint m =>
      show (runUpdOps (u.checkpoint_with_hint m).1 rest).1.service_status_handle_is_null = _
      rw [ih]
      simp
    | accept mask v =>
      show (runUpdOps (u.set_accept_bits mask v) rest).1.service_status_handle_is_null = _
      rw [ih]
      simp

theorem runUpdOps_events (ops : List UpdOp) :
    ∀ u : StatusUpdater, ∀ e ∈ (runUpdOps u ops).2,
      ∃ p, e = Ev.pub p ∧ p.dwCurrentState = u.current_state := by
  induction ops with
  | nil => intro u e he; simp [runUpdOps] at he
  | cons op rest ih =>
    intro u e he
    cases op with
    | cpHint m =>
      have he2 :
          e ∈ ((u.checkpoint_with_hint m).2.map Ev.pub ++
              (runUpdOps (u.checkpoint_with_hint m).1 rest).2) := he
      rw [List.mem_append] at he2
      rcases he2 with hl | hr
      · rw [List.mem_map] at hl
        obtain ⟨p, hp, hpe⟩ := hl
        refine ⟨p, hpe.symm, ?_⟩
        exact (send_update_mem u m p hp).1
      · obtain ⟨p, hpe, hps⟩ := ih _ e hr
        exact ⟨p, hpe, by rw [hps]; simp⟩
    | accept mask v =>
      have he2 : e ∈ (runUpdOps (u.set_accept_bits mask v) rest).2 := he
      obtain ⟨p, hpe, hps⟩ := ih _ e he2
      exact ⟨p, hpe, by rw [hps]; simp⟩

theorem handler_stop_eq (h : ServiceHandler) (et : Nat) (u : StatusUpdater)
    (hns : u.current_state ≠ SERVICE_STOPPED) :
    service_control_handler h SERVICE_CONTROL_STOP et u =
      some (((runUpdOps (u.set_state SERVICE_STOP_PENDING)
                (h.stopOps (u.set_state SERVICE_STOP_PENDING))).1.set_state
                SERVICE_STOPPED).checkpoint0.1,
            Ev.hookStop :: (runUpdOps (u.set_state SERVICE_STOP_PENDING)
                (h.stopOps (u.set_state SERVICE_STOP_PENDING))).2 ++
              ((runUpdOps (u.set_state SERVICE_STOP_PENDING)
                (h.stopOps (u.set_state SERVICE_STOP_PENDING))).1.set_state
                SERVICE_STOPPED).checkpoint0.2.map Ev.pub ++ [Ev.notifyAll],
            NO_ERROR) := by
  unfold service_control_handler
  rw [if_neg hns, if_pos rfl]

/-- C1: For every invocation of the service control handler with the Stop
control in a non-Stopped state (with the registration handle established),
processing sets the state to StopPending (every status the stop hook
publishes carries StopPending), invokes handler.stop exactly once, then
sets the state to Stopped, publishes a checkpoint for the Stopped state,
signals the condition variable to wake the Main Driver, and returns the
success reply code. -/
theorem stop_control_spec (h : ServiceHandler) (et : Nat) (u : StatusUpdater)
    (hns : u.current_state ≠ SERVICE_STOPPED)
    (hreg : u.service_status_handle_is_null = false) :
    ∃ u2 hookEvs s,
      service_control_handler h SERVICE_CONTROL_STOP et u =
        some (u2, Ev.hookStop :: hookEvs ++ [Ev.pub s, Ev.notifyAll], NO_ERROR) ∧
      u2.current_state = SERVICE_STOPPED ∧
      s.dwCurrentState = SERVICE_STOPPED ∧
      s.dwCheckPoint = 0 ∧
      (∀ e ∈ hookEvs, ∃ p, e = Ev.pub p ∧ p.dwCurrentState = SERVICE_STOP_PENDING) ∧
      (Ev.hookStop :: hookEvs ++ [Ev.pub s, Ev.notifyAll]).count Ev.hookStop = 1 := by
  have hr_null :
      (runUpdOps (u.set_state SERVICE_STOP_PENDING)
        (h.stopOps (u.set_state SERVICE_STOP_PENDING))).1.service_status_handle_is_null = false := by
    rw [runUpdOps_null]
    simpa using hreg
  have hc2 :
      ((runUpdOps (u.set_state SERVICE_STOP_PENDING)
        (h.stopOps (u.set_state SERVICE_STOP_PENDING))).1.set_state
        SERVICE_STOPPED).checkpoint0.2 =
      [((runUpdOps (u.set_state SERVICE_STOP_PENDING)
        (h.stopOps (u.set_state SERVICE_STOP_PENDING))).1.set_state
        SERVICE_STOPPED).current_status 0] := by
    show ((runUpdOps (u.set_state SERVICE_STOP_PENDING)
        (h.stopOps (u.set_state SERVICE_STOP_PENDING))).1.set_state
        SERVICE_STOPPED).send_update 0 = _
    exact send_update_of_not_null _ _ (by simp [hr_null])
  refine ⟨((runUpdOps (u.set_state SERVICE_STOP_PENDING)
            (h.stopOps (u.set_state SERVICE_STOP_PENDING))).1.set_state
            SERVICE_STOPPED).checkpoint0.1,
          (runUpdOps (u.set_state SERVICE_STOP_PENDING)
            (h.stopOps (u.set_state SERVICE_STOP_PENDING))).2,
          ((runUpdOps (u.set_state SERVICE_STOP_PENDING)
            (h.stopOps (u.set_state SERVICE_STOP_PENDING))).1.set_state
            SERVICE_STOPPED).current_status 0,
          ?_, rfl, rfl, rfl, ?_, ?_⟩
  · rw [handler_stop_eq h et u hns, hc2, List.append_assoc]
    rfl
  · intro e he
    obtain ⟨p, hpe, hps⟩ := runUpdOps_events _ _ e he
    exact ⟨p, hpe, by simpa using hps⟩
  · rw [List.count_append]
    have h1 : (Ev.hookStop :: (runUpdOps (u.set_state SERVICE_STOP_PENDING)
        (h.stopOps (u.set_state SERVICE_STOP_PENDING))).2).count Ev.hookStop = 1 := by
      rw [List.count_cons_self, List.count_eq_zero.mpr]
      intro hmem
      obtain ⟨p, hpe, _⟩ := runUpdOps_events _ _ _ hmem
      exact Ev.noConfusion hpe
    rw [h1]
    simp

/-- Witness for stop_control_spec at the no-op handler in the Running
state. -/
theorem stop_control_spec_witness :
    ∃ u2 hookEvs s,
      service_control_handler noopHandler SERVICE_CONTROL_STOP 0 runningUpdater =
        some (u2, Ev.hookStop :: hookEvs ++ [Ev.pub s, Ev.notifyAll], NO_ERROR) ∧
      u2.current_state = SERVICE_STOPPED ∧
      s.dwCurrentState = SERVICE_STOPPED ∧
      s.dwCheckPoint = 0 ∧
      (∀ e ∈ hookEvs, ∃ p, e = Ev.pub p ∧ p.dwCurrentState = SERVICE_STOP_PENDING) ∧
      (Ev.hookStop :: hookEvs ++ [Ev.pub s, Ev.notifyAll]).count Ev.hookStop = 1 :=
  stop_control_spec noopHandler 0 runningUpdater (by decide) (by decide)

theorem handler_continue_not_running_eq (h : ServiceHandler) (et : Nat)
    (u : StatusUpdater) (hns : u.current_state ≠ SERVICE_STOPPED)
    (hnr : u.current_state ≠ SERVICE_RUNNING) :
    service_control_handler h SERVICE_CONTROL_CONTINUE et u =
      some (u, [], ERROR_INVALID_STATE) := by
  unfold service_control_handler
  rw [if_neg hns,
      if_neg (show ¬ SERVICE_CONTROL_CONTINUE = SERVICE_CONTROL_STOP by decide),
      if_neg (show ¬ SERVICE_CONTROL_CONTINUE = SERVICE_CONTROL_INTERROGATE by decide),
      if_neg (show ¬ SERVICE_CONTROL_CONTINUE = SERVICE_CONTROL_PAUSE by decide),
      if_pos rfl, if_pos hnr]

theorem handler_continue_running_eq (h : ServiceHandler) (et : Nat)
    (u : StatusUpdater) (hns : u.current_state ≠ SERVICE_STOPPED)
    (hr : u.current_state = SERVICE_RUNNING) :
    service_control_handler h SERVICE_CONTROL_CONTINUE et u =
      some (((runUpdOps (u.set_state SERVICE_CONTINUE_PENDING).checkpoint0.1
               (h.resumeOps (u.set_state SERVICE_CONTINUE_PENDING).checkpoint0.1)).1.set_state
               SERVICE_RUNNING).checkpoint0.1,
            (u.set_state SERVICE_CONTINUE_PENDING).checkpoint0.2.map Ev.pub ++
              Ev.hookResume :: (runUpdOps (u.set_state SERVICE_CONTINUE_PENDING).checkpoint0.1
                (h.resumeOps (u.set_state SERVICE_CONTINUE_PENDING).checkpoint0.1)).2 ++
              ((runUpdOps (u.set_state SERVICE_CONTINUE_PENDING).checkpoint0.1
                (h.resumeOps (u.set_state SERVICE_CONTINUE_PENDING).checkpoint0.1)).1.set_state
                SERVICE_RUNNING).checkpoint0.2.map Ev.pub,
            NO_ERROR) := by
  unfold service_control_handler
  rw [if_neg hns,
      if_neg (show ¬ SERVICE_CONTROL_CONTINUE = SERVICE_CONTROL_STOP by decide),
      if_neg (show ¬ SERVICE_CONTROL_CONTINUE = SERVICE_CONTROL_INTERROGATE by decide),
      if_neg (show ¬ SERVICE_CONTROL_CONTINUE = SERVICE_CONTROL_PAUSE by decide),
      if_pos rfl, if_neg (show ¬ u.current_state ≠ SERVICE_RUNNING from fun k => k hr)]

/-- C2: For every invocation of the service control handler with the
Continue control (registration handle established, invocation legal, so
not in the Stopped state): when the current state is Running the handler
transitions to ContinuePending and publishes a checkpoint for it, invokes
handler.resume, transitions back to Running and publishes a checkpoint for
it, and returns success; for every other current state it returns the
invalid-state error reply, leaves the entire status record unchanged and
produces no event, in particular invoking no hook. -/
theorem continue_control_spec (h : ServiceHandler) (et : Nat) (u : StatusUpdater)
    (hns : u.current_state ≠ SERVICE_STOPPED)
    (hreg : u.service_status_handle_is_null = false) :
    (u.current_state = SERVICE_RUNNING →
      ∃ u2 hookEvs s1 s2,
        service_control_handler h SERVICE_CONTROL_CONTINUE et u =
          some (u2, Ev.pub s1 :: Ev.hookResume :: hookEvs ++ [Ev.pub s2], NO_ERROR) ∧
        s1.dwCurrentState = SERVICE_CONTINUE_PENDING ∧
        s1.dwCheckPoint = 0 ∧
        s2.dwCurrentState = SERVICE_RUNNING ∧
        s2.dwCheckPoint = 0 ∧
        u2.current_state = SERVICE_RUNNING ∧
        (∀ e ∈ hookEvs, ∃ p, e = Ev.pub p ∧ p.dwCurrentState = SERVICE_CONTINUE_PENDING)) ∧
    (u.current_state ≠ SERVICE_RUNNING →
      service_control_handler h SERVICE_CONTROL_CONTINUE et u =
        some (u, [], ERROR_INVALID_STATE)) := by
  constructor
  · intro hr
    have hc1 :
        (u.set_state SERVICE_CONTINUE_PENDING).checkpoint0.2 =
          [(u.set_state SERVICE_CONTINUE_PENDING).current_status 0] := by
      show (u.set_state SERVICE_CONTINUE_PENDING).send_update 0 = _
      exact send_update_of_not_null _ _ (by simp [hreg])
    have hrn :
        (runUpdOps (u.set_state SERVICE_CONTINUE_PENDING).checkpoint0.1
          (h.resumeOps (u.set_state SERVICE_CONTINUE_PENDING).checkpoint0.1)).1.service_status_handle_is_null
          = false := by
      rw [runUpdOps_null]
      simpa using hreg
    have hc2 :
        ((runUpdOps (u.set_state SERVICE_CONTINUE_PENDING).checkpoint0.1
          (h.resumeOps (u.set_state SERVICE_CONTINUE_PENDING).checkpoint0.1)).1.set_state
          SERVICE_RUNNING).checkpoint0.2 =
        [((runUpdOps (u.set_state SERVICE_CONTINUE_PENDING).checkpoint0.1
          (h.resumeOps (u.set_state SERVICE_CONTINUE_PENDING).checkpoint0.1)).1.set_state
          SERVICE_RUNNING).current_status 0] := by
      show ((runUpdOps (u.set_state SERVICE_CONTINUE_PENDING).checkpoint0.1
          (h.resumeOps (u.set_state SERVICE_CONTINUE_PENDING).checkpoint0.1)).1.set_state
          SERVICE_RUNNING).send_update 0 = _
      exact send_update_of_not_null _ _ (by simp [hrn])
    refine ⟨((runUpdOps (u.set_state SERVICE_CONTINUE_PENDING).checkpoint0.1
              (h.resumeOps (u.set_state SERVICE_CONTINUE_PENDING).checkpoint0.1)).1.set_state
              SERVICE_RUNNING).checkpoint0.1,
            (runUpdOps (u.set_state SERVICE_CONTINUE_PENDING).checkpoint0.1
              (h.resumeOps (u.set_state SERVICE_CONTINUE_PENDING).checkpoint0.1)).2,
            (u.set_state SERVICE_CONTINUE_PENDING).current_status 0,
            ((runUpdOps (u.set_state SERVICE_CONTINUE_PENDING).checkpoint0.1
              (h.resumeOps (u.set_state SERVICE_CONTINUE_PENDING).checkpoint0.1)).1.set_state
              SERVICE_RUNNING).current_status 0,
            ?_, rfl, rfl, rfl, rfl, rfl, ?_⟩
    · rw [handler_continue_running_eq h et u hns hr, hc1, hc2]
      rfl
    · intro e he
      obtain ⟨p, hpe, hps⟩ := runUpdOps_events _ _ e he
      exact ⟨p, hpe, by simpa using hps⟩
  · intro hnr
    exact handler_continue_not_running_eq h et u hns hnr

/-- Witness for continue_control_spec: the Running branch at the no-op
handler in the Running state, and the rejection branch in the Paused
state. -/
theorem continue_control_spec_witness :
    (∃ u2 hookEvs s1 s2,
        service_control_handler noopHandler SERVICE_CONTROL_CONTINUE 0 runningUpdater =
          some (u2, Ev.pub s1 :: Ev.hookResume :: hookEvs ++ [Ev.pub s2], NO_ERROR) ∧
        s1.dwCurrentState = SERVICE_CONTINUE_PENDING ∧
        s1.dwCheckPoint = 0 ∧
        s2.dwCurrentState = SERVICE_RUNNING ∧
        s2.dwCheckPoint = 0 ∧
        u2.current_state = SERVICE_RUNNING ∧
        (∀ e ∈ hookEvs, ∃ p, e = Ev.pub p ∧ p.dwCurrentState = SERVICE_CONTINUE_PENDING)) ∧
    service_control_handler noopHandler SERVICE_CONTROL_CONTINUE 0
        { runningUpdater with current_state := SERVICE_PAUSED } =
      some ({ runningUpdater with current_state := SERVICE_PAUSED }, [],
            ERROR_INVALID_STATE) :=
  ⟨(continue_control_spec noopHandler 0 runningUpdater (by decide) (by decide)).1 rfl,
   (continue_control_spec noopHandler 0
      { runningUpdater with current_state := SERVICE_PAUSED }
      (by decide) (by decide)).2 (by decide)⟩

theorem handler_default_eq (h : ServiceHandler) (c et : Nat) (u : StatusUpdater)
    (hns : u.current_state ≠ SERVICE_STOPPED)
    (h1 : c ≠ SERVICE_CONTROL_STOP) (h2 : c ≠ SERVICE_CONTROL_INTERROGATE)
    (h3 : c ≠ SERVICE_CONTROL_PAUSE) (h4 : c ≠ SERVICE_CONTROL_CONTINUE)
    (h5 : c ≠ SERVICE_CONTROL_PARAMCHANGE) (h6 : c ≠ SERVICE_CONTROL_POWEREVENT) :
    service_control_handler h c et u = some (u, [], ERROR_CALL_NOT_IMPLEMENTED) := by
  unfold service_control_handler
  rw [if_neg hns, if_neg h1, if_neg h2, if_neg h3, if_neg h4, if_neg h5, if_neg h6]

/-- C8: For every invocation of the service control handler while the
current state is Stopped, regardless of the control code, the defensive
assert fires (modelled as the none result: a fatal program error, not a
processed request or an error reply). -/
theorem stopped_state_assert_spec (h : ServiceHandler) (c et : Nat)
    (u : StatusUpdater) (hstop : u.current_state = SERVICE_STOPPED) :
    service_control_handler h c et u = none := by
  unfold service_control_handler
  rw [if_pos hstop]

/-- Witness for stopped_state_assert_spec at the Stop control in the
Stopped state. -/
theorem stopped_state_assert_spec_witness :
    service_control_handler noopHandler SERVICE_CONTROL_STOP 0
      { runningUpdater with current_state := SERVICE_STOPPED } = none :=
  stopped_state_assert_spec noopHandler SERVICE_CONTROL_STOP 0
    { runningUpdater with current_state := SERVICE_STOPPED } rfl

/-- C7: For every invocation of the service control handler with a control
code outside the recognized set (Stop, Interrogate, Pause, Continue,
ParamChange, PowerEvent), on a legal invocation (not in the Stopped state,
where the assert would fire instead), the handler returns the
not-implemented error reply, leaves the status record untouched and
produces no event, in particular invoking no hook. -/
theorem unrecognized_control_spec (h : ServiceHandler) (c et : Nat)
    (u : StatusUpdater) (hns : u.current_state ≠ SERVICE_STOPPED)
    (h1 : c ≠ SERVICE_CONTROL_STOP) (h2 : c ≠ SERVICE_CONTROL_INTERROGATE)
    (h3 : c ≠ SERVICE_CONTROL_PAUSE) (h4 : c ≠ SERVICE_CONTROL_CONTINUE)
    (h5 : c ≠ SERVICE_CONTROL_PARAMCHANGE) (h6 : c ≠ SERVICE_CONTROL_POWEREVENT) :
    service_control_handler h c et u = some (u, [], ERROR_CALL_NOT_IMPLEMENTED) :=
  handler_default_eq h c et u hns h1 h2 h3 h4 h5 h6

/-- Witness for unrecognized_control_spec at the Shutdown control code,
which this dispatch loop does not recognize. -/
theorem unrecognized_control_spec_witness :
    service_control_handler noopHandler SERVICE_CONTROL_SHUTDOWN 0 runningUpdater =
      some (runningUpdater, [], ERROR_CALL_NOT_IMPLEMENTED) :=
  unrecognized_control_spec noopHandler SERVICE_CONTROL_SHUTDOWN 0 runningUpdater
    (by decide) (by decide) (by decide) (by decide) (by decide) (by decide) (by decide)

/-- C5: The Interrogate control republishes the current status unchanged
(no state transition, no hook invoked, success reply), but the published
wait hint is not zero: send_update computes
wait_hint.as_millis().max(u32::MAX.into()) as u32 where a clamp (min) was
clearly intended, so the zero duration passed at the Interrogate site is
published as the wait hint 4294967295 (u32 MAX).  Evaluated here at a
concrete Running-state updater with checkpoint 3. -/
theorem interrogate_wait_hint_bug :
    service_control_handler noopHandler SERVICE_CONTROL_INTERROGATE 0 runningUpdater =
      some (runningUpdater,
            [Ev.pub { dwCheckPoint := 3, dwControlsAccepted := 1,
                      dwCurrentState := SERVICE_RUNNING,
                      dwWaitHint := 4294967295,
                      dwServiceSpecificExitCode := 0,
                      dwServiceType := SERVICE_USER_OWN_PROCESS,
                      dwWin32ExitCode := 0 }],
            NO_ERROR) ∧
    (runningUpdater.current_status 0).dwWaitHint = 4294967295 := by decide

/-- C6 counterexample: with a null registration handle, checkpoint_with_hint
publishes nothing but does not leave the StatusUpdater record unchanged:
the checkpoint counter is still incremented (src/lib.rs line 65 runs
unconditionally; only send_update returns early). -/
theorem null_handle_checkpoint_cex :
    (nullHandleUpdater.checkpoint_with_hint 0).2 = [] ∧
    (nullHandleUpdater.checkpoint_with_hint 0).1 ≠ nullHandleUpdater := by decide

/-- C6 as amended: for every call to checkpoint_with_hint (and hence
checkpoint) while the registration handle is null, nothing is published to
the OS and every field of the StatusUpdater record other than the
checkpoint counter is unchanged, but the counter is incremented. -/
theorem null_handle_checkpoint_amended (u : StatusUpdater) (m : Nat)
    (hnull : u.service_status_handle_is_null = true) :
    (u.checkpoint_with_hint m).2 = [] ∧
    (u.checkpoint_with_hint m).1 =
      { u with checkpoint := (u.checkpoint + 1) % U32_MOD } := by
  constructor
  · show u.send_update m = []
    unfold StatusUpdater.send_update
    rw [if_pos hnull]
  · rfl

/-- Witness for null_handle_checkpoint_amended at a concrete null-handle
updater. -/
theorem null_handle_checkpoint_amended_witness :
    (nullHandleUpdater.checkpoint_with_hint 7).2 = [] ∧
    (nullHandleUpdater.checkpoint_with_hint 7).1 =
      { nullHandleUpdater with checkpoint := (nullHandleUpdater.checkpoint + 1) % U32_MOD } :=
  null_handle_checkpoint_amended nullHandleUpdater 7 rfl

theorem service_proc_start_fail_eq (h : ServiceHandler) (u : StatusUpdater)
    (hf : h.startOk u = false) :
    service_proc_start h u =
      (((runUpdOps u (h.startOps u)).1.set_state SERVICE_STOPPED).checkpoint0.1,
       Ev.hookStart :: (runUpdOps u (h.startOps u)).2 ++
         ((runUpdOps u (h.startOps u)).1.set_state SERVICE_STOPPED).checkpoint0.2.map Ev.pub,
       false) := by
  unfold service_proc_start
  rw [if_neg (show ¬ (h.startOk u = true) by simp [hf])]

theorem service_proc_start_ok_eq (h : ServiceHandler) (u : StatusUpdater)
    (hok : h.startOk u = true) :
    service_proc_start h u =
      (((runUpdOps u (h.startOps u)).1.set_state SERVICE_RUNNING).checkpoint0.1,
       Ev.hookStart :: (runUpdOps u (h.startOps u)).2 ++
         ((runUpdOps u (h.startOps u)).1.set_state SERVICE_RUNNING).checkpoint0.2.map Ev.pub,
       true) := by
  unfold service_proc_start
  rw [if_pos hok]

/-- C4: If handler.start returns failure during the start handshake of the
Main Driver (which runs on the initial StartPending status record with the
registration handle just stored), the run performs exactly one transition,
from StartPending to Stopped: every status the start hook publishes still
carries StartPending, exactly one Stopped status with a fresh checkpoint is
published at the end, no status carrying Running is ever published, start
is invoked exactly once (no retry), and the driver returns early. -/
theorem start_failure_spec (h : ServiceHandler)
    (hf : h.startOk initial_status_updater = false) :
    ∃ u2 hookEvs s,
      service_proc_start h initial_status_updater =
        (u2, Ev.hookStart :: hookEvs ++ [Ev.pub s], false) ∧
      u2.current_state = SERVICE_STOPPED ∧
      s.dwCurrentState = SERVICE_STOPPED ∧
      s.dwCheckPoint = 0 ∧
      (∀ e ∈ hookEvs, ∃ p, e = Ev.pub p ∧ p.dwCurrentState = SERVICE_START_PENDING) ∧
      (∀ p, Ev.pub p ∈ Ev.hookStart :: hookEvs ++ [Ev.pub s] →
        p.dwCurrentState ≠ SERVICE_RUNNING) ∧
      (Ev.hookStart :: hookEvs ++ [Ev.pub s]).count Ev.hookStart = 1 := by
  have hrn :
      (runUpdOps initial_status_updater
        (h.startOps initial_status_updater)).1.service_status_handle_is_null = false := by
    rw [runUpdOps_null]
    rfl
  have hc :
      ((runUpdOps initial_status_updater
        (h.startOps initial_status_updater)).1.set_state SERVICE_STOPPED).checkpoint0.2 =
      [((runUpdOps initial_status_updater
        (h.startOps initial_status_updater)).1.set_state SERVICE_STOPPED).current_status 0] := by
    show ((runUpdOps initial_status_updater
        (h.startOps initial_status_updater)).1.set_state SERVICE_STOPPED).send_update 0 = _
    exact send_update_of_not_null _ _ (by simp [hrn])
  refine ⟨((runUpdOps initial_status_updater
            (h.startOps initial_status_updater)).1.set_state SERVICE_STOPPED).checkpoint0.1,
          (runUpdOps initial_status_updater (h.startOps initial_status_updater)).2,
          ((runUpdOps initial_status_updater
            (h.startOps initial_status_updater)).1.set_state SERVICE_STOPPED).current_status 0,
          ?_, rfl, rfl, rfl, ?_, ?_, ?_⟩
  · rw [service_proc_start_fail_eq h initial_status_updater hf, hc]
    rfl
  · intro e he
    obtain ⟨p, hpe, hps⟩ := runUpdOps_events _ _ e he
    exact ⟨p, hpe, by simpa using hps⟩
  · intro p hp
    simp only [List.cons_append, List.mem_cons, List.mem_append,
      List.mem_singleton] at hp
    rcases hp with h1 | h2 | h3
    · exact Ev.noConfusion h1
    · obtain ⟨q, hqe, hqs⟩ := runUpdOps_events _ _ _ h2
      have hpq : p = q := by injection hqe
      subst hpq
      rw [hqs]
      decide
    · rcases h3 with h3 | h3
      · have hps : p = ((runUpdOps initial_status_updater
            (h.startOps initial_status_updater)).1.set_state SERVICE_STOPPED).current_status 0 := by
          injection h3
        subst hps
        show SERVICE_STOPPED ≠ SERVICE_RUNNING
        decide
      · simp at h3
  · rw [List.count_append]
    have h1 : (Ev.hookStart :: (runUpdOps initial_status_updater
        (h.startOps initial_status_updater)).2).count Ev.hookStart = 1 := by
      rw [List.count_cons_self, List.count_eq_zero.mpr]
      intro hmem
      obtain ⟨p, hpe, _⟩ := runUpdOps_events _ _ _ hmem
      exact Ev.noConfusion hpe
    rw [h1]
    simp

/-- Witness for start_failure_spec at the handler whose start fails. -/
theorem start_failure_spec_witness :
    ∃ u2 hookEvs s,
      service_proc_start failingHandler initial_status_updater =
        (u2, Ev.hookStart :: hookEvs ++ [Ev.pub s], false) ∧
      u2.current_state = SERVICE_STOPPED ∧
      s.dwCurrentState = SERVICE_STOPPED ∧
      s.dwCheckPoint = 0 ∧
      (∀ e ∈ hookEvs, ∃ p, e = Ev.pub p ∧ p.dwCurrentState = SERVICE_START_PENDING) ∧
      (∀ p, Ev.pub p ∈ Ev.hookStart :: hookEvs ++ [Ev.pub s] →
        p.dwCurrentState ≠ SERVICE_RUNNING) ∧
      (Ev.hookStart :: hookEvs ++ [Ev.pub s]).count Ev.hookStart = 1 :=
  start_failure_spec failingHandler rfl

theorem handler_no_shutdown_events (h : ServiceHandler) (c et : Nat)
    (u : StatusUpdater) (r : StatusUpdater × List Ev × Nat)
    (heq : service_control_handler h c et u = some r) :
    ∀ e ∈ r.2.1, e ≠ Ev.hookShutdown ∧ e ≠ Ev.hookPreshutdown := by
  have hpub : ∀ (v : StatusUpdater) (ops : List UpdOp) (e : Ev),
      e ∈ (runUpdOps v ops).2 → e ≠ Ev.hookShutdown ∧ e ≠ Ev.hookPreshutdown := by
    intro v ops e hmem
    obtain ⟨p, rfl, -⟩ := runUpdOps_events ops v e hmem
    exact ⟨fun hx => Ev.noConfusion hx, fun hx => Ev.noConfusion hx⟩
  have hmap : ∀ (l : List SERVICE_STATUS) (e : Ev),
      e ∈ l.map Ev.pub → e ≠ Ev.hookShutdown ∧ e ≠ Ev.hookPreshutdown := by
    intro l e hmem
    rw [List.mem_map] at hmem
    obtain ⟨p, -, rfl⟩ := hmem
    exact ⟨fun hx => Ev.noConfusion hx, fun hx => Ev.noConfusion hx⟩
  unfold service_control_handler at heq
  split_ifs at heq
  all_goals cases Option.some.inj heq
  all_goals intro e he
  all_goals simp only [List.mem_cons, List.mem_append, List.not_mem_nil,
    or_false, false_or] at he
  all_goals
    repeat'
      first
        | exact hmap _ _ he
        | exact hpub _ _ _ he
        | (cases he; exact ⟨by decide, by decide⟩)
        | (rcases he with he | he)

/-- C10: The dispatch loop never invokes handler.shutdown or
handler.preshutdown: the Shutdown and Preshutdown control codes have no
match arm and fall into the unrecognized-control branch (not-implemented
error reply, no state mutation, no event), and no control code whatsoever
produces a shutdown or preshutdown hook invocation in its trace, even
though the ServiceHandler interface declares both hooks. -/
theorem shutdown_never_invoked_spec (h : ServiceHandler) (et : Nat)
    (u : StatusUpdater) :
    (u.current_state ≠ SERVICE_STOPPED →
      service_control_handler h SERVICE_CONTROL_SHUTDOWN et u =
        some (u, [], ERROR_CALL_NOT_IMPLEMENTED) ∧
      service_control_handler h SERVICE_CONTROL_PRESHUTDOWN et u =
        some (u, [], ERROR_CALL_NOT_IMPLEMENTED)) ∧
    (∀ c r, service_control_handler h c et u = some r →
      Ev.hookShutdown ∉ r.2.1 ∧ Ev.hookPreshutdown ∉ r.2.1) := by
  constructor
  · intro hns
    exact ⟨handler_default_eq h SERVICE_CONTROL_SHUTDOWN et u hns (by decide)
             (by decide) (by decide) (by decide) (by decide) (by decide),
           handler_default_eq h SERVICE_CONTROL_PRESHUTDOWN et u hns (by decide)
             (by decide) (by decide) (by decide) (by decide) (by decide)⟩
  · intro c r heq
    constructor
    · intro hmem
      exact (handler_no_shutdown_events h c et u r heq _ hmem).1 rfl
    · intro hmem
      exact (handler_no_shutdown_events h c et u r heq _ hmem).2 rfl

/-- Witness for shutdown_never_invoked_spec: the Shutdown control at the
no-op handler in the Running state is answered not-implemented, and the
trace of a Stop invocation contains no shutdown hook event. -/
theorem shutdown_never_invoked_spec_witness :
    service_control_handler noopHandler SERVICE_CONTROL_SHUTDOWN 0 runningUpdater =
      some (runningUpdater, [], ERROR_CALL_NOT_IMPLEMENTED) ∧
    Ev.hookShutdown ∉
      [Ev.hookStop,
       Ev.pub { dwCheckPoint := 0, dwControlsAccepted := 1,
                dwCurrentState := SERVICE_STOPPED, dwWaitHint := 4294967295,
                dwServiceSpecificExitCode := 0,
                dwServiceType := SERVICE_USER_OWN_PROCESS, dwWin32ExitCode := 0 },
       Ev.notifyAll] :=
  ⟨((shutdown_never_invoked_spec noopHandler 0 runningUpdater).1 (by decide)).1,
   ((shutdown_never_invoked_spec noopHandler 0 runningUpdater).2 SERVICE_CONTROL_STOP
      ({ runningUpdater with current_state := SERVICE_STOPPED, checkpoint := 1 },
       [Ev.hookStop,
        Ev.pub { dwCheckPoint := 0, dwControlsAccepted := 1,
                 dwCurrentState := SERVICE_STOPPED, dwWaitHint := 4294967295,
                 dwServiceSpecificExitCode := 0,
                 dwServiceType := SERVICE_USER_OWN_PROCESS, dwWin32ExitCode := 0 },
        Ev.notifyAll], NO_ERROR) (by decide)).1⟩

theorem handler_pause_eq (h : ServiceHandler) (et : Nat) (u : StatusUpdater)
    (hns : u.current_state ≠ SERVICE_STOPPED) :
    service_control_handler h SERVICE_CONTROL_PAUSE et u =
      some ((runUpdOps u (h.pauseOps u)).1,
            Ev.hookPause :: (runUpdOps u (h.pauseOps u)).2, NO_ERROR) := by
  unfold service_control_handler
  rw [if_neg hns,
      if_neg (show ¬ SERVICE_CONTROL_PAUSE = SERVICE_CONTROL_STOP by decide),
      if_neg (show ¬ SERVICE_CONTROL_PAUSE = SERVICE_CONTROL_INTERROGATE by decide),
      if_pos rfl]

theorem filter_hook_runUpdOps (ops : List UpdOp) (u : StatusUpdater) :
    ((runUpdOps u ops).2).filter isHookEv = [] := by
  rw [List.filter_eq_nil_iff]
  intro e he
  obtain ⟨p, rfl, -⟩ := runUpdOps_events ops u e he
  simp [isHookEv]

theorem filter_hook_map_pub (l : List SERVICE_STATUS) :
    (l.map Ev.pub).filter isHookEv = [] := by
  rw [List.filter_eq_nil_iff]
  intro e he
  rw [List.mem_map] at he
  obtain ⟨p, -, rfl⟩ := he
  simp [isHookEv]

/-- C9: In the sequence successful start (state Running), then a Pause
control, then a Continue control: pause invokes handler.pause with no
forced state transition (the state is still Running afterwards, whatever
StatusUpdater calls the pause hook makes) and a success reply, so resume
is invoked by the Continue arm, the hook invocation order over the two
dispatches is pause then resume, and the final state is Running. -/
theorem pause_continue_scenario_spec (h : ServiceHandler) (et1 et2 : Nat)
    (hok : h.startOk initial_status_updater = true) :
    ∃ u1 t1 u2 t2,
      service_control_handler h SERVICE_CONTROL_PAUSE et1
          (service_proc_start h initial_status_updater).1 = some (u1, t1, NO_ERROR) ∧
      u1.current_state = SERVICE_RUNNING ∧
      service_control_handler h SERVICE_CONTROL_CONTINUE et2 u1 = some (u2, t2, NO_ERROR) ∧
      u2.current_state = SERVICE_RUNNING ∧
      (t1 ++ t2).filter isHookEv = [Ev.hookPause, Ev.hookResume] := by
  have hu0 : (service_proc_start h initial_status_updater).1 =
      ((runUpdOps initial_status_updater
        (h.startOps initial_status_updater)).1.set_state SERVICE_RUNNING).checkpoint0.1 := by
    rw [service_proc_start_ok_eq h initial_status_updater hok]
  have hu0s : (service_proc_start h initial_status_updater).1.current_state =
      SERVICE_RUNNING := by
    rw [hu0]
    rfl
  have hu0ns : (service_proc_start h initial_status_updater).1.current_state ≠
      SERVICE_STOPPED := by
    rw [hu0s]
    decide
  have hu1s : (runUpdOps (service_proc_start h initial_status_updater).1
      (h.pauseOps (service_proc_start h initial_status_updater).1)).1.current_state =
      SERVICE_RUNNING := by
    rw [runUpdOps_state]
    exact hu0s
  have hu1ns : (runUpdOps (service_proc_start h initial_status_updater).1
      (h.pauseOps (service_proc_start h initial_status_updater).1)).1.current_state ≠
      SERVICE_STOPPED := by
    rw [hu1s]
    decide
  have hcont := handler_continue_running_eq h et2
      (runUpdOps (service_proc_start h initial_status_updater).1
        (h.pauseOps (service_proc_start h initial_status_updater).1)).1 hu1ns hu1s
  exact ⟨_, _, _, _,
         handler_pause_eq h et1 (service_proc_start h initial_status_updater).1 hu0ns,
         hu1s, hcont, rfl,
         by simp [List.filter_append, List.filter_cons, filter_hook_runUpdOps,
           filter_hook_map_pub, isHookEv]⟩

/-- Witness for pause_continue_scenario_spec at the no-op handler. -/
theorem pause_continue_scenario_spec_witness :
    ∃ u1 t1 u2 t2,
      service_control_handler noopHandler SERVICE_CONTROL_PAUSE 0
          (service_proc_start noopHandler initial_status_updater).1 =
        some (u1, t1, NO_ERROR) ∧
      u1.current_state = SERVICE_RUNNING ∧
      service_control_handler noopHandler SERVICE_CONTROL_CONTINUE 0 u1 =
        some (u2, t2, NO_ERROR) ∧
      u2.current_state = SERVICE_RUNNING ∧
      (t1 ++ t2).filter isHookEv = [Ev.hookPause, Ev.hookResume] :=
  pause_continue_scenario_spec noopHandler 0 0 rfl

theorem runStatusOps_pubs_ge (ops : List StatusOp) :
    ∀ u : StatusUpdater, (∀ s, StatusOp.setState s ∉ ops) →
      u.checkpoint + ops.length ≤ U32_MOD →
      ∀ p ∈ (runStatusOps u ops).2, u.checkpoint ≤ p.dwCheckPoint := by
  induction ops with
  | nil =>
    intro u h1 h2 p hp
    simp [runStatusOps] at hp
  | cons op rest ih =>
    intro u hset hlen p hp
    cases op with
    | setState s => exact absurd (List.mem_cons_self _ _) (hset s)
    | cpHint m =>
      have hp2 : p ∈ u.send_update m ++
          (runStatusOps (u.checkpoint_with_hint m).1 rest).2 := hp
      rw [List.mem_append] at hp2
      rcases hp2 with h1 | h2
      · rw [(send_update_mem u m p h1).2]
      · by_cases hw : u.checkpoint + 1 < U32_MOD
        · have hmod : (u.checkpoint + 1) % U32_MOD = u.checkpoint + 1 :=
            Nat.mod_eq_of_lt hw
          have hrec := ih (u.checkpoint_with_hint m).1
            (fun s hs => hset s (List.mem_cons_of_mem _ hs))
            (by
              rw [checkpoint_with_hint_fst_checkpoint, hmod]
              simp only [List.length_cons] at hlen
              omega) p h2
          rw [checkpoint_with_hint_fst_checkpoint, hmod] at hrec
          omega
        · have hr0 : rest.length = 0 := by
            simp only [List.length_cons] at hlen
            omega
          rw [List.length_eq_zero.mp hr0] at h2
          simp [runStatusOps] at h2
    | sendUpdate m =>
      have hp2 : p ∈ u.send_update m ++ (runStatusOps u rest).2 := hp
      rw [List.mem_append] at hp2
      rcases hp2 with h1 | h2
      · rw [(send_update_mem u m p h1).2]
      · exact ih u (fun s hs => hset s (List.mem_cons_of_mem _ hs))
          (by simp only [List.length_cons] at hlen; omega) p h2
    | accept mask v =>
      have hp2 : p ∈ (runStatusOps (u.set_accept_bits mask v) rest).2 := hp
      have hrec := ih (u.set_accept_bits mask v)
        (fun s hs => hset s (List.mem_cons_of_mem _ hs))
        (by
          rw [set_accept_bits_checkpoint]
          simp only [List.length_cons] at hlen
          omega) p hp2
      rw [set_accept_bits_checkpoint] at hrec
      exact hrec

theorem send_update_pairwise (u : StatusUpdater) (m : Nat)
    (R : SERVICE_STATUS → SERVICE_STATUS → Prop) :
    List.Pairwise R (u.send_update m) := by
  unfold StatusUpdater.send_update
  split <;> simp

theorem runStatusOps_pubs_pairwise_le (ops : List StatusOp) :
    ∀ u : StatusUpdater, (∀ s, StatusOp.setState s ∉ ops) →
      u.checkpoint + ops.length ≤ U32_MOD →
      List.Pairwise (fun a b => a.dwCheckPoint ≤ b.dwCheckPoint)
        (runStatusOps u ops).2 := by
  induction ops with
  | nil =>
    intro u h1 h2
    simp [runStatusOps]
  | cons op rest ih =>
    intro u hset hlen
    cases op with
    | setState s => exact absurd (List.mem_cons_self _ _) (hset s)
    | cpHint m =>
      have heq : (runStatusOps u (StatusOp.cpHint m :: rest)).2 =
          u.send_update m ++ (runStatusOps (u.checkpoint_with_hint m).1 rest).2 := rfl
      rw [heq, List.pairwise_append]
      by_cases hw : u.checkpoint + 1 < U32_MOD
      · have hmod : (u.checkpoint + 1) % U32_MOD = u.checkpoint + 1 :=
          Nat.mod_eq_of_lt hw
        have hlen2 : (u.checkpoint_with_hint m).1.checkpoint + rest.length ≤ U32_MOD := by
          rw [checkpoint_with_hint_fst_checkpoint, hmod]
          simp only [List.length_cons] at hlen
          omega
        refine ⟨send_update_pairwise u m _,
                ih (u.checkpoint_with_hint m).1
                  (fun s hs => hset s (List.mem_cons_of_mem _ hs)) hlen2,
                ?_⟩
        intro a ha b hb
        rw [(send_update_mem u m a ha).2]
        have hb2 := runStatusOps_pubs_ge rest (u.checkpoint_with_hint m).1
          (fun s hs => hset s (List.mem_cons_of_mem _ hs)) hlen2 b hb
        rw [checkpoint_with_hint_fst_checkpoint, hmod] at hb2
        omega
      · have hr0 : rest.length = 0 := by
          simp only [List.length_cons] at hlen
          omega
        rw [List.length_eq_zero.mp hr0]
        refine ⟨send_update_pairwise u m _, by simp [runStatusOps], ?_⟩
        intro a ha b hb
        simp [runStatusOps] at hb
    | sendUpdate m =>
      have heq : (runStatusOps u (StatusOp.sendUpdate m :: rest)).2 =
          u.send_update m ++ (runStatusOps u rest).2 := rfl
      rw [heq, List.pairwise_append]
      have hlen2 : u.checkpoint + rest.length ≤ U32_MOD := by
        simp only [List.length_cons] at hlen
        omega
      refine ⟨send_update_pairwise u m _,
              ih u (fun s hs => hset s (List.mem_cons_of_mem _ hs)) hlen2, ?_⟩
      intro a ha b hb
      rw [(send_update_mem u m a ha).2]
      exact runStatusOps_pubs_ge rest u
        (fun s hs => hset s (List.mem_cons_of_mem _ hs)) hlen2 b hb
    | accept mask v =>
      have heq : (runStatusOps u (StatusOp.accept mask v :: rest)).2 =
          (runStatusOps (u.set_accept_bits mask v) rest).2 := rfl
      rw [heq]
      exact ih (u.set_accept_bits mask v)
        (fun s hs => hset s (List.mem_cons_of_mem _ hs))
        (by
          rw [set_accept_bits_checkpoint]
          simp only [List.length_cons] at hlen
          omega)

theorem runStatusOps_pubs_pairwise_lt (ops : List StatusOp) :
    ∀ u : StatusUpdater, (∀ s, StatusOp.setState s ∉ ops) →
      (∀ m, StatusOp.sendUpdate m ∉ ops) →
      u.checkpoint + ops.length ≤ U32_MOD →
      List.Pairwise (fun a b => a.dwCheckPoint < b.dwCheckPoint)
        (runStatusOps u ops).2 := by
  induction ops with
  | nil =>
    intro u h1 h2 h3
    simp [runStatusOps]
  | cons op rest ih =>
    intro u hset hsend hlen
    cases op with
    | setState s => exact absurd (List.mem_cons_self _ _) (hset s)
    | cpHint m =>
      have heq : (runStatusOps u (StatusOp.cpHint m :: rest)).2 =
          u.send_update m ++ (runStatusOps (u.checkpoint_with_hint m).1 rest).2 := rfl
      rw [heq, List.pairwise_append]
      by_cases hw : u.checkpoint + 1 < U32_MOD
      · have hmod : (u.checkpoint + 1) % U32_MOD = u.checkpoint + 1 :=
          Nat.mod_eq_of_lt hw
        have hlen2 : (u.checkpoint_with_hint m).1.checkpoint + rest.length ≤ U32_MOD := by
          rw [checkpoint_with_hint_fst_checkpoint, hmod]
          simp only [List.length_cons] at hlen
          omega
        refine ⟨send_update_pairwise u m _,
                ih (u.checkpoint_with_hint m).1
                  (fun s hs => hset s (List.mem_cons_of_mem _ hs))
                  (fun k hk => hsend k (List.mem_cons_of_mem _ hk)) hlen2,
                ?_⟩
        intro a ha b hb
        rw [(send_update_mem u m a ha).2]
        have hb2 := runStatusOps_pubs_ge rest (u.checkpoint_with_hint m).1
          (fun s hs => hset s (List.mem_cons_of_mem _ hs)) hlen2 b hb
        rw [checkpoint_with_hint_fst_checkpoint, hmod] at hb2
        omega
      · have hr0 : rest.length = 0 := by
          simp only [List.length_cons] at hlen
          omega
        rw [List.length_eq_zero.mp hr0]
        refine ⟨send_update_pairwise u m _, by simp [runStatusOps], ?_⟩
        intro a ha b hb
        simp [runStatusOps] at hb
    | sendUpdate m => exact absurd (List.mem_cons_self _ _) (hsend m)
    | accept mask v =>
      have heq : (runStatusOps u (StatusOp.accept mask v :: rest)).2 =
          (runStatusOps (u.set_accept_bits mask v) rest).2 := rfl
      rw [heq]
      exact ih (u.set_accept_bits mask v)
        (fun s hs => hset s (List.mem_cons_of_mem _ hs))
        (fun k hk => hsend k (List.mem_cons_of_mem _ hk))
        (by
          rw [set_accept_bits_checkpoint]
          simp only [List.length_cons] at hlen
          omega)

/-- C3 counterexample: within a single state (Running, counter 3, handle
established), the Interrogate republish path (a bare send_update, as at
src/lib.rs line 193) publishes a status without incrementing the checkpoint
counter, so a following checkpoint call publishes the same value again:
the two published checkpoint values are 3 and 3, which is not a strict
increase, and the counter is unchanged by the republish. -/
theorem checkpoint_republish_cex :
    (runStatusOps runningUpdater
      [StatusOp.sendUpdate 0, StatusOp.cpHint 0]).2.map
        (fun p => p.dwCheckPoint) = [3, 3] ∧
    ¬ List.Pairwise (fun a b => a.dwCheckPoint < b.dwCheckPoint)
        (runStatusOps runningUpdater [StatusOp.sendUpdate 0, StatusOp.cpHint 0]).2 ∧
    (runStatusOps runningUpdater [StatusOp.sendUpdate 0]).1.checkpoint =
      runningUpdater.checkpoint ∧
    (runStatusOps runningUpdater [StatusOp.sendUpdate 0]).2.length = 1 := by decide

/-- C3 as amended: for every sequence of operations on a StatusUpdater,
the checkpoint counter is reset to exactly 0 on every state transition
(set_state) and is incremented (mod 2^32) on every checkpoint or
checkpoint_with_hint call, which publishes the prior counter value; a bare
send_update republish (the Interrogate path) does not increment the
counter, so within any single state (a run without set_state, with fewer
than 2^32 increments) the published checkpoint values are non-decreasing,
and strictly increase when every republish in the run is a checkpoint
call. -/
theorem checkpoint_monotonicity_amended :
    (∀ (u : StatusUpdater) (s : Nat), (u.set_state s).checkpoint = 0) ∧
    (∀ (u : StatusUpdater) (m : Nat),
      (u.checkpoint_with_hint m).1.checkpoint = (u.checkpoint + 1) % U32_MOD ∧
      (u.service_status_handle_is_null = false →
        (u.checkpoint_with_hint m).2.map (fun p => p.dwCheckPoint) = [u.checkpoint])) ∧
    (∀ (u : StatusUpdater) (ops : List StatusOp),
      (∀ s, StatusOp.setState s ∉ ops) →
      u.checkpoint + ops.length ≤ U32_MOD →
      List.Pairwise (fun a b => a.dwCheckPoint ≤ b.dwCheckPoint)
        (runStatusOps u ops).2 ∧
      ((∀ m, StatusOp.sendUpdate m ∉ ops) →
        List.Pairwise (fun a b => a.dwCheckPoint < b.dwCheckPoint)
          (runStatusOps u ops).2)) := by
  refine ⟨fun u s => rfl, fun u m => ⟨rfl, fun hn => ?_⟩,
          fun u ops h1 h2 =>
            ⟨runStatusOps_pubs_pairwise_le ops u h1 h2,
             fun h3 => runStatusOps_pubs_pairwise_lt ops u h1 h3 h2⟩⟩
  show (u.send_update m).map _ = _
  rw [send_update_of_not_null u m hn]
  rfl

/-- Witness for checkpoint_monotonicity_amended at a concrete run mixing
checkpoint calls and an Interrogate republish in the Running state. -/
theorem checkpoint_monotonicity_amended_witness :
    List.Pairwise (fun a b => a.dwCheckPoint ≤ b.dwCheckPoint)
      (runStatusOps runningUpdater
        [StatusOp.cpHint 0, StatusOp.sendUpdate 0, StatusOp.cpHint 5]).2 ∧
    (runningUpdater.checkpoint_with_hint 0).2.map (fun p => p.dwCheckPoint) =
      [runningUpdater.checkpoint] :=
  ⟨(checkpoint_monotonicity_amended.2.2 runningUpdater
      [StatusOp.cpHint 0, StatusOp.sendUpdate 0, StatusOp.cpHint 5]
      (by intro s hs; simp at hs) (by decide)).1,
   (checkpoint_monotonicity_amended.2.1 runningUpdater 0).2 rfl⟩
